import Mathlib

/-!
Shallow embedding of the JobAppTracker repository (brianquach123/JobAppTracker).

The repository contains two snapshots of its core crate:
* `V1` — the monolithic `src/jobtracker-core/src/lib.rs`;
* `V2` — the split modules `src/jobtracker-core/src/job_source.rs` and
  `src/jobtracker-core/src/job_store.rs`.
Where the two snapshots define the same function differently (`FromStr for
JobSource`, `JobStore::list_jobs`), both are embedded, in namespaces `V1`
and `V2`.  Functions that are identical in both snapshots are embedded once.

Modelling conventions:
* Rust `String` is Lean `String`; `str::to_lowercase` is mapped over the
  character list (ASCII case folding via `Char.toLower`, which matches
  Rust on ASCII input — the inputs of interest here).
* `u32` ids are modelled as `ℕ` (the id arithmetic `max + 1` stays far
  below `2^32` for any store a user can build, so wrapping is not modelled).
* `chrono::DateTime<Utc>` is an `ℤ` count of seconds since the epoch;
  `DateTime::date_naive` is floor division by 86400, which is exactly the
  calendar-day number of a UTC instant in a leap-second-free calendar
  (chrono's own model).
* File I/O: the repository file `jobtrack.json` is `Option (List Job)`
  (`none` = file missing/unopenable).  `fs::write` can fail; each store
  operation takes a `saveOk : Bool` telling whether the write performed by
  that operation succeeds, and returns the triple
  (store after the call, file after the call, returned `Result`).
  Malformed on-disk JSON (a parse error on load) is not modelled; no claim
  under scrutiny depends on it.
* egui plot pointer coordinates (`f64`) are modelled as `ℚ`.  `f64::round`
  rounds half away from zero; `f64 as usize` saturates below at 0 (and
  above at `usize::MAX`, which is unreachable for the indices involved
  here) — both are modelled explicitly.
-/

/-- The states a job application may be in (`JobStatus` in lib.rs and in the
split snapshot; the two definitions agree). -/
inductive JobStatus where
  | Applied
  | Interview
  | Offer
  | Rejected
  | Ghosted
deriving DecidableEq

/-- Where a job application was discovered.  The lib.rs enum has only
`Recruiter, LinkedIn, Monster, Indeed, NotProvided`; the split snapshot
(`job_source.rs`) additionally has `Talent, Glassdoor, ZipRecruiter`.
The embedding uses the union; the V1 parser simply never produces the last
three constructors, mirroring their absence from the lib.rs enum. -/
inductive JobSource where
  | Recruiter
  | LinkedIn
  | Monster
  | Indeed
  | NotProvided
  | Talent
  | Glassdoor
  | ZipRecruiter
deriving DecidableEq

/-- Model of Rust `str::to_lowercase` (ASCII case folding, applied
character-wise; Lean 4.14 strings are lists of characters). -/
def to_lowercase (s : String) : String :=
  ⟨s.data.map Char.toLower⟩

namespace V1

/-- The value computed by `<JobSource as FromStr>::from_str` in lib.rs
(lines 94-103).  Every arm of the source `match` returns `Ok`, so the
match collapses to this total function; `from_str` below restores the
`Result` wrapper.  The first arm compares the lowercased input against
the literal `"linkedIn"` — which contains an uppercase `I` and therefore
can never equal a lowercased string; the arm is kept exactly as written. -/
def sourceOfStr (s : String) : JobSource :=
  let t := to_lowercase s
  if t = "linkedIn" then JobSource.LinkedIn
  else if t = "monster" then JobSource.Monster
  else if t = "indeed" then JobSource.Indeed
  else if t = "recruiter" then JobSource.Recruiter
  else JobSource.NotProvided

/-- `<JobSource as FromStr>::from_str`, lib.rs snapshot: always `Ok`. -/
def from_str (s : String) : Except String JobSource :=
  Except.ok (sourceOfStr s)

end V1

namespace V2

/-- The value computed by `<JobSource as FromStr>::from_str` in
`job_source.rs` (lines 22-36); every arm returns `Ok`. -/
def sourceOfStr (s : String) : JobSource :=
  let t := to_lowercase s
  if t = "linkedin" then JobSource.LinkedIn
  else if t = "monster" then JobSource.Monster
  else if t = "indeed" then JobSource.Indeed
  else if t = "recruiter" then JobSource.Recruiter
  else if t = "talent.com" then JobSource.Talent
  else if t = "glassdoor" then JobSource.Glassdoor
  else if t = "ziprecruiter" then JobSource.ZipRecruiter
  else JobSource.NotProvided

/-- `<JobSource as FromStr>::from_str`, split snapshot: always `Ok`. -/
def from_str (s : String) : Except String JobSource :=
  Except.ok (sourceOfStr s)

end V2

/-- Representation of a job application entered by the user (`Job` in
lib.rs lines 107-126). -/
structure Job where
  id : ℕ
  company : String
  role : String
  role_location : Option String
  status : JobStatus
  timestamp : ℤ
  source : Option JobSource
deriving DecidableEq

/-- `Job::new` (lib.rs lines 129-145).  `Utc::now()` is passed in as
`now`; `new_source.parse().unwrap()` is `V1.sourceOfStr` because the lib.rs
parser returns `Ok` on every input, so `unwrap` never panics. -/
def Job.new (id : ℕ) (company role new_role_location new_source : String)
    (now : ℤ) : Job :=
  { id := id
    company := company
    role := role
    role_location := some new_role_location
    status := JobStatus.Applied
    timestamp := now
    source := some (V1.sourceOfStr new_source) }

/-- Derived summary counters (`SummaryCounts`, lib.rs lines 181-189; the
field order follows the source struct).  `Default` derives to all-zero. -/
structure SummaryCounts where
  total : ℕ
  rejected : ℕ
  ghosted : ℕ
  applied : ℕ
  interviews : ℕ
  offers : ℕ
deriving DecidableEq

/-- `SummaryCounts::default()` — every field zero. -/
def SummaryCounts.default : SummaryCounts :=
  ⟨0, 0, 0, 0, 0, 0⟩

/-- The rejection-rate percentage printed by `impl fmt::Display for
SummaryCounts` (lib.rs lines 199-203 and summary_counts.rs):
`(self.rejected as f32 / self.total as f32) * 100.0`.  The division is
performed unconditionally; when `total = 0` the f32 quotient is NaN
(0/0) or +inf (x/0), a non-finite value, modelled here as `none`. -/
def rejection_rate_pct (s : SummaryCounts) : Option ℚ :=
  if s.total = 0 then none else some ((s.rejected : ℚ) / (s.total : ℚ) * 100)

/-- The interview-rate percentage printed by the same `Display` impl
(lib.rs lines 204-208), `(self.interviews as f32 / self.total as f32) *
100.0`, again with no guard on `total = 0`. -/
def interview_rate_pct (s : SummaryCounts) : Option ℚ :=
  if s.total = 0 then none else some ((s.interviews : ℚ) / (s.total : ℚ) * 100)

/-- The in-memory store (`JobStore`, lib.rs lines 212-216). -/
structure JobStore where
  jobs : List Job
  summary_stats : SummaryCounts
deriving DecidableEq

/-- Persistence error kinds (anyhow errors raised by `save`/`load`; the
spec's `PersistenceWriteError` / `PersistenceReadError` /
`PersistenceParseError`). -/
inductive PersistError where
  | writeError
  | readError
  | parseError
deriving DecidableEq

/-- The contents of `jobtrack.json`: `none` when the file is missing or
cannot be opened, `some l` when it (well-formedly) holds the list `l`. -/
abbrev RepoFile := Option (List Job)

/-- `save` (lib.rs lines 158-162; `JobStore::save_to_file` in
job_store.rs is the same logic): serialize the whole list and rewrite the
file.  `saveOk` tells whether this write succeeds; on failure the file is
unchanged and a write error is returned. -/
def save (saveOk : Bool) (fs : RepoFile) (apps : List Job) :
    RepoFile × Except PersistError Unit :=
  if saveOk then (some apps, Except.ok ()) else (fs, Except.error PersistError.writeError)

/-- `load` (lib.rs lines 164-179): a missing/unopenable file and an empty
file both yield `Ok(vec![])`; otherwise the parsed list.  (A JSON parse
error on a malformed file is not modelled; see the header.) -/
def load (fs : RepoFile) : List Job :=
  fs.getD []

/-- Result shape of every `&mut self` store operation: the store after the
call (Rust mutates in place before saving, so a failed save leaves the
mutation in memory), the file after the call, and the returned
`Result<Vec<Job>>`. -/
abbrev StoreResult := JobStore × RepoFile × Except PersistError (List Job)

/-- The body of the per-job loop of `JobStore::calculate_summary_stats`
(lib.rs lines 223-232): bump `total` and the counter of the job's status. -/
def tally (s : SummaryCounts) (job : Job) : SummaryCounts :=
  let s := { s with total := s.total + 1 }
  match job.status with
  | JobStatus.Rejected => { s with rejected := s.rejected + 1 }
  | JobStatus.Ghosted => { s with ghosted := s.ghosted + 1 }
  | JobStatus.Applied => { s with applied := s.applied + 1 }
  | JobStatus.Interview => { s with interviews := s.interviews + 1 }
  | JobStatus.Offer => { s with offers := s.offers + 1 }

/-- `JobStore::calculate_summary_stats` (lib.rs lines 219-234, identical
in job_store.rs): reset the counters to `default` and re-tally every job.
The Rust function returns `Ok(())` unconditionally; only the state change
is modelled. -/
def calculate_summary_stats (st : JobStore) : JobStore :=
  { st with summary_stats := st.jobs.foldl tally SummaryCounts.default }

/-- `JobStore::add_job` (lib.rs lines 236-253, identical in job_store.rs
up to the save helper): `new_job_id` is `max existing id (or 0) + 1`, the
new job is appended, and the whole list is saved. -/
def add_job (saveOk : Bool) (st : JobStore) (fs : RepoFile) (now : ℤ)
    (company role new_role_location new_source : String) : StoreResult :=
  let new_job_id := ((st.jobs.map Job.id).max?).getD 0 + 1
  let jobs := st.jobs ++ [Job.new new_job_id company role new_role_location new_source now]
  let sv := save saveOk fs jobs
  ({ st with jobs := jobs }, sv.1,
    match sv.2 with
    | Except.ok _ => Except.ok jobs
    | Except.error e => Except.error e)

/-- `JobStore::list_jobs` in the lib.rs snapshot (lines 255-258):
`self.jobs = load()?; Ok(self.jobs.clone())` — the in-memory list is
replaced by whatever the repository file holds, and that is returned. -/
def V1.list_jobs (st : JobStore) (fs : RepoFile) : StoreResult :=
  ({ st with jobs := load fs }, fs, Except.ok (load fs))

/-- `JobStore::list_jobs` in the split snapshot (job_store.rs lines
78-80): `Ok(self.jobs.clone())` — a snapshot of the in-memory list, no
repository access, no state change. -/
def V2.list_jobs (st : JobStore) (fs : RepoFile) : StoreResult :=
  (st, fs, Except.ok st.jobs)

/-- `JobStore::delete_job` (lib.rs lines 260-266): remove the record at
the given positional index and save, but only when the index is in
bounds; out of bounds, nothing happens and `Ok(clone)` is returned. -/
def delete_job (saveOk : Bool) (st : JobStore) (fs : RepoFile) (index : ℕ) : StoreResult :=
  if index < st.jobs.length then
    let jobs := st.jobs.eraseIdx index
    let sv := save saveOk fs jobs
    ({ st with jobs := jobs }, sv.1,
      match sv.2 with
      | Except.ok _ => Except.ok jobs
      | Except.error e => Except.error e)
  else (st, fs, Except.ok st.jobs)

/-- Mutate the first list element satisfying `p` with `f` (the effect of
`self.jobs.iter_mut().find(p)` followed by a field assignment). -/
def updateFirstBy (p : Job → Bool) (f : Job → Job) : List Job → List Job
  | [] => []
  | j :: rest => if p j then f j :: rest else j :: updateFirstBy p f rest

/-- Shared shape of the four `update_*` operations (lib.rs lines 268-302):
if some record has the given id, mutate the first such record with `f`
and save; otherwise do nothing; either way return `Ok(clone)` (or the
propagated save error). -/
def update_by_id (saveOk : Bool) (st : JobStore) (fs : RepoFile) (id : ℕ)
    (f : Job → Job) : StoreResult :=
  if st.jobs.any (fun j => j.id == id) then
    let jobs := updateFirstBy (fun j => j.id == id) f st.jobs
    let sv := save saveOk fs jobs
    ({ st with jobs := jobs }, sv.1,
      match sv.2 with
      | Except.ok _ => Except.ok jobs
      | Except.error e => Except.error e)
  else (st, fs, Except.ok st.jobs)

/-- `JobStore::update_status` (lib.rs lines 268-274). -/
def update_status (saveOk : Bool) (st : JobStore) (fs : RepoFile) (id : ℕ)
    (new_status : JobStatus) : StoreResult :=
  update_by_id saveOk st fs id (fun j => { j with status := new_status })

/-- `JobStore::update_source` (lib.rs lines 276-282). -/
def update_source (saveOk : Bool) (st : JobStore) (fs : RepoFile) (id : ℕ)
    (new_source : JobSource) : StoreResult :=
  update_by_id saveOk st fs id (fun j => { j with source := some new_source })

/-- `JobStore::update_company` (lib.rs lines 284-290). -/
def update_company (saveOk : Bool) (st : JobStore) (fs : RepoFile) (id : ℕ)
    (new_company : String) : StoreResult :=
  update_by_id saveOk st fs id (fun j => { j with company := new_company })

/-- `JobStore::update_timestamp` (lib.rs lines 292-302). -/
def update_timestamp (saveOk : Bool) (st : JobStore) (fs : RepoFile) (id : ℕ)
    (new_timestamp : ℤ) : StoreResult :=
  update_by_id saveOk st fs id (fun j => { j with timestamp := new_timestamp })

/-- A concrete job record used by the concrete-input theorems. -/
def demoJob : Job :=
  { id := 1
    company := "Acme"
    role := "Engineer"
    role_location := some "Remote"
    status := JobStatus.Applied
    timestamp := 0
    source := some JobSource.LinkedIn }

def c4_step1 : StoreResult :=
  add_job true ⟨[], SummaryCounts.default⟩ none 0 "Acme" "Engineer" "Remote" "linkedin"

def c4_step2 : StoreResult :=
  add_job true c4_step1.1 c4_step1.2.1 0 "Globex" "PM" "NYC" "indeed"

def c4_step3 : StoreResult :=
  delete_job true c4_step2.1 c4_step2.2.1 1

def c4_step4 : StoreResult :=
  add_job true c4_step3.1 c4_step3.2.1 0 "Initech" "Dev" "LA" "monster"

/-- `DateTime::date_naive` on a UTC instant: the calendar-day number of
the instant, i.e. floor division of the epoch-second count by 86400. -/
def date_naive (t : ℤ) : ℤ :=
  Int.fdiv t 86400

/-- `earliest_date` in `add_bar_chart_stats` (jobtracker-gui main.rs lines
145-151): the smallest calendar day among the records' timestamps, or
today's day when there are no records. -/
def earliest_date (jobs : List Job) (today : ℤ) : ℤ :=
  ((jobs.map (fun job => date_naive job.timestamp)).min?).getD (date_naive today)

/-- The `while d <= today.date_naive()` loop of main.rs lines 154-162:
collect every day from `d` up to and including `t`, stepping by
`succ_opt` (+1 day). -/
def dayRange (d t : ℤ) : List ℤ :=
  if d ≤ t then d :: dayRange (d + 1) t else []
termination_by (t + 1 - d).toNat
decreasing_by
  omega

/-- `all_dates` (main.rs lines 154-162): every day from `earliest_date`
through today inclusive. -/
def all_dates (jobs : List Job) (today : ℤ) : List ℤ :=
  dayRange (earliest_date jobs today) (date_naive today)

/-- The bucket construction of main.rs lines 165-178, collapsed from its
`HashMap` form: `date_to_jobs` is seeded with an empty vector for exactly
the keys `all_dates`, each job is pushed (in list order) onto the vector
of its own day — which is present as a key whenever the job's day lies in
the range — and `sorted_dates` sorts those keys, recovering `all_dates`
itself because `all_dates` is already strictly increasing
(`dayRange_pairwise_lt` below).  Bucket `i` of the result therefore holds,
in source-list order, the jobs whose day is `all_dates[i]`. -/
def day_buckets (jobs : List Job) (today : ℤ) : List (List Job) :=
  (all_dates jobs today).map
    (fun d => jobs.filter (fun job => date_naive job.timestamp == d))

/-- `f64::round` (used on the pointer's x coordinate, main.rs line 230):
round to the nearest integer, half away from zero.  `0 ≤ q.num` is
`0 ≤ q` for `ℚ`. -/
def rust_round (q : ℚ) : ℤ :=
  if 0 ≤ q.num then Rat.floor (q + mkRat 1 2) else -Rat.floor (-q + mkRat 1 2)

/-- The hit-test block of `add_bar_chart_stats` (main.rs lines 227-243):
`x_idx = pointer.x.round() as usize` selects a day of the dense sequence
(a cast that saturates negatives to 0), a missing index resolves to
nothing; `stack_idx = pointer.y.floor() as usize` (same saturating cast)
selects the record at that stack position in the day's bucket, a missing
position resolves to nothing.  The day's bucket is indexed directly
(`sorted_dates.get` followed by the always-successful `date_to_jobs.get`
collapse to one list lookup, see `day_buckets`). -/
def resolve (dayBuckets : List (List Job)) (px py : ℚ) : Option Job :=
  let x_idx := (rust_round px).toNat
  match dayBuckets.get? x_idx with
  | some jobs =>
      let stack_idx := (Rat.floor py).toNat
      jobs.get? stack_idx
  | none => none

/-- Concrete record for the gap-filling instance: applied on day 0. -/
def c7job1 : Job :=
  { id := 1
    company := "Acme"
    role := "Engineer"
    role_location := some "Remote"
    status := JobStatus.Applied
    timestamp := 0
    source := some JobSource.LinkedIn }

/-- Concrete record for the gap-filling instance: applied on day 5. -/
def c7job2 : Job :=
  { id := 2
    company := "Globex"
    role := "PM"
    role_location := some "NYC"
    status := JobStatus.Rejected
    timestamp := 432000
    source := some JobSource.Indeed }

def c7jobs : List Job :=
  [c7job1, c7job2]

def c7today : ℤ :=
  432000

/-- C5 (amended): parsing a textual source value never fails in either
snapshot's parser.  In the split snapshot's parser the recognized strings,
compared case-insensitively, are `linkedin`, `monster`, `indeed`,
`recruiter`, `talent.com` (not `talent`: the Talent source is only
recognized under its display name `Talent.com`), `glassdoor` and
`ziprecruiter`, each yielding the corresponding source, and every other
string yields `NotProvided`.  In the lib.rs parser the `linkedIn` pattern
is compared against an already-lowercased input and never matches, so
every spelling of LinkedIn also yields `NotProvided`. -/
theorem from_str_characterization (s : String) :
    (∃ v, V2.from_str s = Except.ok v) ∧
    (V2.from_str s = Except.ok JobSource.LinkedIn ↔ to_lowercase s = "linkedin") ∧
    (V2.from_str s = Except.ok JobSource.Monster ↔ to_lowercase s = "monster") ∧
    (V2.from_str s = Except.ok JobSource.Indeed ↔ to_lowercase s = "indeed") ∧
    (V2.from_str s = Except.ok JobSource.Recruiter ↔ to_lowercase s = "recruiter") ∧
    (V2.from_str s = Except.ok JobSource.Talent ↔ to_lowercase s = "talent.com") ∧
    (V2.from_str s = Except.ok JobSource.Glassdoor ↔ to_lowercase s = "glassdoor") ∧
    (V2.from_str s = Except.ok JobSource.ZipRecruiter ↔ to_lowercase s = "ziprecruiter") ∧
    (to_lowercase s ∉ (["linkedin", "monster", "indeed", "recruiter",
        "talent.com", "glassdoor", "ziprecruiter"] : List String) →
      V2.from_str s = Except.ok JobSource.NotProvided) ∧
    (∃ w, V1.from_str s = Except.ok w) ∧
    (to_lowercase s = "linkedin" → V1.from_str s = Except.ok JobSource.NotProvided) := by
  simp only [V2.from_str, V2.sourceOfStr, V1.from_str, V1.sourceOfStr]
  split_ifs <;> simp_all

/-- C5 counterexample: the claim says a string naming the Talent source in
any casing parses to Talent and one naming LinkedIn parses to LinkedIn;
the split snapshot's parser sends `"Talent"` to `NotProvided` (it only
recognizes `talent.com`), and the lib.rs parser sends `"LinkedIn"` to
`NotProvided` (its `linkedIn` match arm is unreachable). -/
theorem from_str_claim_counterexample :
    V2.from_str "Talent" = Except.ok JobSource.NotProvided ∧
    V1.from_str "LinkedIn" = Except.ok JobSource.NotProvided ∧
    JobSource.NotProvided ≠ JobSource.Talent ∧
    JobSource.NotProvided ≠ JobSource.LinkedIn :=
  ⟨rfl, rfl, by decide, by decide⟩

/-- C5 witness: the characterization applied at concrete inputs — the
recognized string `GlassDoor` (mixed case) parses to Glassdoor in the
split snapshot's parser, and `LinkedIn` parses to `NotProvided` in the
lib.rs parser. -/
theorem from_str_characterization_witness :
    V2.from_str "GlassDoor" = Except.ok JobSource.Glassdoor ∧
    V1.from_str "LinkedIn" = Except.ok JobSource.NotProvided := by
  refine ⟨?_, ?_⟩
  · exact (from_str_characterization "GlassDoor").2.2.2.2.2.2.1.mpr (by decide)
  · exact (from_str_characterization "LinkedIn").2.2.2.2.2.2.2.2.2.2 (by decide)

/-- C3 (amended): the split snapshot's `list_jobs` returns the current
in-memory record list and changes neither the store nor the file, while
the lib.rs snapshot's `list_jobs` replaces the in-memory list with
whatever `load()` reads from the repository file and returns that. -/
theorem list_jobs_two_snapshots (st : JobStore) (fs : RepoFile) :
    ((V2.list_jobs st fs).1 = st ∧ (V2.list_jobs st fs).2.1 = fs ∧
      (V2.list_jobs st fs).2.2 = Except.ok st.jobs) ∧
    ((V1.list_jobs st fs).1.jobs = load fs ∧
      (V1.list_jobs st fs).2.2 = Except.ok (load fs)) :=
  ⟨⟨rfl, rfl, rfl⟩, rfl, rfl⟩

/-- C3 counterexample: with one record in memory and an empty list on
disk, the lib.rs `list_jobs` returns `Ok([])` — not the in-memory list —
and clobbers the in-memory list with the stale on-disk read. -/
theorem list_jobs_reload_counterexample :
    (V1.list_jobs ⟨[demoJob], SummaryCounts.default⟩ (some [])).1.jobs = [] ∧
    (V1.list_jobs ⟨[demoJob], SummaryCounts.default⟩ (some [])).2.2 =
      Except.ok ([] : List Job) ∧
    ([] : List Job) ≠ [demoJob] :=
  ⟨rfl, rfl, by decide⟩

lemma mem_le_max_getD (l : List ℕ) (x : ℕ) (hx : x ∈ l) : x ≤ l.max?.getD 0 := by
  cases hmax : l.max? with
  | none =>
    rw [List.max?_eq_none_iff] at hmax
    subst hmax
    cases hx
  | some a =>
    have h := ((List.max?_eq_some_iff (fun a => le_refl a)
      (fun a b => max_choice a b) (fun a b c => max_le_iff)).mp hmax).2 x hx
    simpa using h

/-- C4 (amended): the id assigned by `add_job` is
`(max existing id, or 0 if none) + 1`, hence strictly greater than the id
of every record currently in the store — unique among live records — but
nothing relates it to ids of already-deleted records (deleting the record
holding the maximum id frees that id for reuse; see the counterexample). -/
theorem add_job_id_exceeds_live_ids (saveOk : Bool) (st : JobStore) (fs : RepoFile)
    (now : ℤ) (company role new_role_location new_source : String) :
    ∃ j : Job,
      (add_job saveOk st fs now company role new_role_location new_source).1.jobs
        = st.jobs ++ [j] ∧
      j.id = ((st.jobs.map Job.id).max?).getD 0 + 1 ∧
      ∀ j' ∈ st.jobs, j'.id < j.id := by
  refine ⟨Job.new (((st.jobs.map Job.id).max?).getD 0 + 1) company role
    new_role_location new_source now, rfl, rfl, ?_⟩
  intro j' hj'
  have h := mem_le_max_getD (st.jobs.map Job.id) j'.id (List.mem_map_of_mem Job.id hj')
  have hnew : (Job.new (((st.jobs.map Job.id).max?).getD 0 + 1) company role
      new_role_location new_source now).id
      = ((st.jobs.map Job.id).max?).getD 0 + 1 := rfl
  omega

/-- C4 counterexample: starting from the empty store, add two records
(ids 1 and 2), delete position 1 (the record with id 2), then add again:
the new record is assigned id 2 — the identifier of a record that was
previously deleted — refuting "identifiers are never reused after
deletion". -/
theorem add_job_id_reuse_counterexample :
    c4_step2.1.jobs.map Job.id = [1, 2] ∧
    c4_step3.1.jobs.map Job.id = [1] ∧
    c4_step4.1.jobs.map Job.id = [1, 2] := by
  decide

/-- C4 witness: the amended theorem applied to a store holding the single
record `demoJob` (id 1) — the next id is 2. -/
theorem add_job_id_exceeds_live_ids_witness :
    (add_job true ⟨[demoJob], SummaryCounts.default⟩ none 0 "A" "B" "C" "d").1.jobs.map Job.id
      = [1, 2] := by
  obtain ⟨j, h1, h2, _⟩ := add_job_id_exceeds_live_ids true
    ⟨[demoJob], SummaryCounts.default⟩ none 0 "A" "B" "C" "d"
  rw [h1]
  simp only [List.map_append, List.map_cons, List.map_nil, h2]
  decide

/-- C10: every record created through `add_job` has both optional fields
present — its `role_location` is `Some` of the supplied location text and
its `source` is `Some` of the parsed source value. -/
theorem add_job_fields_present (saveOk : Bool) (st : JobStore) (fs : RepoFile)
    (now : ℤ) (company role new_role_location new_source : String) :
    ∃ j : Job,
      (add_job saveOk st fs now company role new_role_location new_source).1.jobs
        = st.jobs ++ [j] ∧
      j.role_location = some new_role_location ∧
      j.source = some (V1.sourceOfStr new_source) :=
  ⟨Job.new (((st.jobs.map Job.id).max?).getD 0 + 1) company role
    new_role_location new_source now, rfl, rfl, rfl⟩

/-- C9: every mutating operation whose target is absent is a silent
no-op returning success: `delete_job` at an index that is not below the
list length, and each `update_*` with an id no record carries, return
`Ok` with the unchanged list and leave both the store and the repository
file untouched. -/
theorem absent_target_mutators_noop (saveOk : Bool) (st : JobStore) (fs : RepoFile)
    (index : ℕ) (id : ℕ) (new_status : JobStatus) (new_source : JobSource)
    (new_company : String) (new_timestamp : ℤ)
    (hindex : st.jobs.length ≤ index)
    (hid : ∀ j ∈ st.jobs, j.id ≠ id) :
    delete_job saveOk st fs index = (st, fs, Except.ok st.jobs) ∧
    update_status saveOk st fs id new_status = (st, fs, Except.ok st.jobs) ∧
    update_source saveOk st fs id new_source = (st, fs, Except.ok st.jobs) ∧
    update_company saveOk st fs id new_company = (st, fs, Except.ok st.jobs) ∧
    update_timestamp saveOk st fs id new_timestamp = (st, fs, Except.ok st.jobs) := by
  have hany : st.jobs.any (fun j => j.id == id) = false := by
    rw [List.any_eq_false]
    intro j hj
    simp [hid j hj]
  refine ⟨?_, ?_, ?_, ?_, ?_⟩
  · simp [delete_job, Nat.not_lt.mpr hindex]
  · simp [update_status, update_by_id, hany]
  · simp [update_source, update_by_id, hany]
  · simp [update_company, update_by_id, hany]
  · simp [update_timestamp, update_by_id, hany]

/-- C9 witness: the no-op theorem applied to a one-record store (id 1)
with the out-of-range index 5 and the absent id 99. -/
theorem absent_target_mutators_noop_witness :
    delete_job true ⟨[demoJob], SummaryCounts.default⟩ none 5 =
      (⟨[demoJob], SummaryCounts.default⟩, none, Except.ok [demoJob]) ∧
    update_status true ⟨[demoJob], SummaryCounts.default⟩ none 99 JobStatus.Offer =
      (⟨[demoJob], SummaryCounts.default⟩, none, Except.ok [demoJob]) ∧
    update_source true ⟨[demoJob], SummaryCounts.default⟩ none 99 JobSource.Indeed =
      (⟨[demoJob], SummaryCounts.default⟩, none, Except.ok [demoJob]) ∧
    update_company true ⟨[demoJob], SummaryCounts.default⟩ none 99 "X" =
      (⟨[demoJob], SummaryCounts.default⟩, none, Except.ok [demoJob]) ∧
    update_timestamp true ⟨[demoJob], SummaryCounts.default⟩ none 99 7 =
      (⟨[demoJob], SummaryCounts.default⟩, none, Except.ok [demoJob]) :=
  absent_target_mutators_noop true ⟨[demoJob], SummaryCounts.default⟩ none 5 99
    JobStatus.Offer JobSource.Indeed "X" 7 (by decide) (by decide)

lemma tally_preserves_partition (s : SummaryCounts) (j : Job)
    (h : s.applied + s.interviews + s.offers + s.rejected + s.ghosted = s.total) :
    (tally s j).applied + (tally s j).interviews + (tally s j).offers +
      (tally s j).rejected + (tally s j).ghosted = (tally s j).total := by
  cases hs : j.status <;> simp [tally, hs] <;> omega

lemma foldl_tally_partition (jobs : List Job) (s : SummaryCounts)
    (h : s.applied + s.interviews + s.offers + s.rejected + s.ghosted = s.total) :
    (jobs.foldl tally s).applied + (jobs.foldl tally s).interviews +
      (jobs.foldl tally s).offers + (jobs.foldl tally s).rejected +
      (jobs.foldl tally s).ghosted = (jobs.foldl tally s).total := by
  induction jobs generalizing s with
  | nil => exact h
  | cons j jobs ih => exact ih (tally s j) (tally_preserves_partition s j h)

/-- C8: immediately after `calculate_summary_stats`, the per-status counts
partition the total — `applied + interviews + offers + rejected + ghosted
= total` for every record list — and on the empty list the total and
every per-status count are 0. -/
theorem calculate_summary_stats_partition (st : JobStore) :
    ((calculate_summary_stats st).summary_stats.applied +
      (calculate_summary_stats st).summary_stats.interviews +
      (calculate_summary_stats st).summary_stats.offers +
      (calculate_summary_stats st).summary_stats.rejected +
      (calculate_summary_stats st).summary_stats.ghosted =
      (calculate_summary_stats st).summary_stats.total) ∧
    (calculate_summary_stats ⟨[], st.summary_stats⟩).summary_stats =
      SummaryCounts.default := by
  constructor
  · exact foldl_tally_partition st.jobs SummaryCounts.default rfl
  · rfl

/-- C6 (code bug): the rate computations in `SummaryCounts`'s `Display`
impl are not guarded: when `total = 0` (for instance the summary of the
empty store, `SummaryCounts::default()`), both rates perform the division
by zero and yield a non-finite f32 value (`none` in this model, rendered
as `NaN%` by the GUI) instead of a defined 0% / NaN-safe value. -/
theorem display_rates_unguarded_at_zero_total :
    rejection_rate_pct SummaryCounts.default = none ∧
    interview_rate_pct SummaryCounts.default = none ∧
    (calculate_summary_stats ⟨[], SummaryCounts.default⟩).summary_stats.total = 0 :=
  ⟨rfl, rfl, rfl⟩

lemma dayRange_unfold (d t : ℤ) :
    dayRange d t = if d ≤ t then d :: dayRange (d + 1) t else [] := by
  rw [dayRange]

lemma dayRange_eq_range (d t : ℤ) :
    dayRange d t = (List.range (t + 1 - d).toNat).map (fun i : ℕ => d + (i : ℤ)) := by
  generalize h : (t + 1 - d).toNat = n
  induction n generalizing d with
  | zero =>
    rw [dayRange_unfold, if_neg (by omega)]
    simp [show (t + 1 - d).toNat = 0 from h]
  | succ n ih =>
    have hd : d ≤ t := by omega
    rw [dayRange_unfold, if_pos hd, ih (d + 1) (by omega)]
    simp only [List.range_succ_eq_map, List.map_cons, List.map_map]
    refine List.cons_eq_cons.mpr ⟨by push_cast; ring, ?_⟩
    refine List.map_congr_left ?_
    intro a _
    simp only [Function.comp_apply]
    push_cast
    ring

lemma dayRange_pairwise_lt (d t : ℤ) : (dayRange d t).Pairwise (· < ·) := by
  rw [dayRange_eq_range]
  refine List.Pairwise.map _ ?_ (List.pairwise_lt_range _)
  intro a b hab
  omega

/-- C7: the bucketer's day sequence is exactly the contiguous run of
calendar days from the oldest record's day (today when the list is empty)
through today inclusive, with one bucket per day even when it holds no
records; in particular a record set spanning day 0 and day 5 with nothing
in between yields exactly 6 day entries, 4 of them empty. -/
theorem all_dates_dense_gap_filled (jobs : List Job) (today : ℤ) :
    (all_dates jobs today =
      (List.range ((date_naive today + 1 - earliest_date jobs today).toNat)).map
        (fun i : ℕ => earliest_date jobs today + (i : ℤ))) ∧
    (∀ d : ℤ, d ∈ all_dates jobs today ↔
      earliest_date jobs today ≤ d ∧ d ≤ date_naive today) ∧
    ((day_buckets jobs today).length = (all_dates jobs today).length) ∧
    (all_dates ([] : List Job) today = [date_naive today]) ∧
    ((day_buckets c7jobs c7today).length = 6 ∧
      ((day_buckets c7jobs c7today).filter List.isEmpty).length = 4) := by
  have had : all_dates c7jobs c7today = [0, 1, 2, 3, 4, 5] := by
    have he : earliest_date c7jobs c7today = 0 := by decide
    have ht : date_naive c7today = 5 := by decide
    unfold all_dates
    rw [he, ht, dayRange_unfold, if_pos (by omega), dayRange_unfold, if_pos (by omega),
      dayRange_unfold, if_pos (by omega), dayRange_unfold, if_pos (by omega),
      dayRange_unfold, if_pos (by omega), dayRange_unfold, if_pos (by omega),
      dayRange_unfold, if_neg (by omega)]
    norm_num
  refine ⟨dayRange_eq_range _ _, ?_, ?_, ?_, ?_, ?_⟩
  · intro d
    unfold all_dates
    rw [dayRange_eq_range]
    simp only [List.mem_map, List.mem_range]
    constructor
    · rintro ⟨i, hi, rfl⟩
      omega
    · rintro ⟨h1, h2⟩
      exact ⟨(d - earliest_date jobs today).toNat, by omega, by omega⟩
  · simp [day_buckets]
  · have he : earliest_date ([] : List Job) today = date_naive today := rfl
    unfold all_dates
    rw [he, dayRange_unfold, if_pos le_rfl, dayRange_unfold, if_neg (by omega)]
  · unfold day_buckets
    rw [had]
    decide
  · unfold day_buckets
    rw [had]
    decide

lemma ratFloor_eq_intFloor (q : ℚ) : Rat.floor q = ⌊q⌋ :=
  (Rat.floor_def' q).trans Rat.floor_def.symm

lemma mkRat_one_two : (mkRat 1 2 : ℚ) = 1 / 2 := by
  rw [Rat.mkRat_eq_div]
  norm_num

lemma floor_add_half_nat (k : ℕ) : Rat.floor ((k : ℚ) + 1 / 2) = (k : ℤ) := by
  rw [ratFloor_eq_intFloor]
  have h : ((k : ℚ) + 1 / 2) = ((k : ℤ) : ℚ) + 1 / 2 := by push_cast; ring
  rw [h, Int.floor_int_add]
  norm_num

lemma rust_round_natCast (i : ℕ) : rust_round (i : ℚ) = (i : ℤ) := by
  unfold rust_round
  rw [if_pos (by simp [Rat.num_natCast])]
  rw [mkRat_one_two, floor_add_half_nat]

/-- C1 (amended): `resolve` returns the record at stack position
`max(floor(y), 0)` of the bucket at day index `max(round(x), 0)` — the
`as usize` casts clamp negative values to 0 (`Int.toNat`) instead of
resolving to none — and returns none exactly when the clamped day index
is not a valid index into the dense day sequence or the clamped stack
index is not below that day's bucket size. -/
theorem resolve_clamped_characterization (dayBuckets : List (List Job)) (px py : ℚ) :
    resolve dayBuckets px py =
      if hx : (rust_round px).toNat < dayBuckets.length then
        if hy : (Rat.floor py).toNat <
            (dayBuckets.get ⟨(rust_round px).toNat, hx⟩).length then
          some ((dayBuckets.get ⟨(rust_round px).toNat, hx⟩).get
            ⟨(Rat.floor py).toNat, hy⟩)
        else none
      else none := by
  unfold resolve
  dsimp only
  by_cases hx : (rust_round px).toNat < dayBuckets.length
  · rw [List.get?_eq_get hx, dif_pos hx]
    by_cases hy : (Rat.floor py).toNat <
        (dayBuckets.get ⟨(rust_round px).toNat, hx⟩).length
    · rw [dif_pos hy]
      exact List.get?_eq_get hy
    · rw [dif_neg hy]
      exact List.get?_eq_none.mpr (Nat.le_of_not_lt hy)
  · rw [List.get?_eq_none.mpr (Nat.le_of_not_lt hx), dif_neg hx]

unseal Rat.add in
/-- C1 counterexample: at pointer y = -3/2 the claim demands none (floor
is negative), and at pointer x = -3 the claim demands none (round(x) = -3
is not a valid index), but the saturating `as usize` casts send both to
index 0, so `resolve` returns the record stacked there. -/
theorem resolve_negative_coordinates_counterexample :
    Rat.floor (mkRat (-3) 2) = -2 ∧
    resolve [[demoJob]] (mkRat 0 1) (mkRat (-3) 2) = some demoJob ∧
    rust_round (mkRat (-3) 1) = -3 ∧
    resolve [[demoJob]] (mkRat (-3) 1) (mkRat 0 1) = some demoJob := by
  decide

/-- C2: a record placed by the bucketer at day index `i`, stack position
`k` (the record at position `k` of bucket `i`) is returned by `resolve`
at the center of its segment, pointer = (i, k + 1/2). -/
theorem bucket_place_resolve_roundtrip (jobs : List Job) (today : ℤ) (i k : ℕ)
    (R : Job)
    (hR : ((day_buckets jobs today).get? i).bind (fun b => b.get? k) = some R) :
    resolve (day_buckets jobs today) (i : ℚ) ((k : ℚ) + 1 / 2) = some R := by
  unfold resolve
  dsimp only
  cases hbk : (day_buckets jobs today).get? i with
  | none =>
    rw [hbk] at hR
    cases hR
  | some b =>
    rw [hbk] at hR
    rw [rust_round_natCast, floor_add_half_nat]
    simp only [Int.toNat_natCast]
    rw [hbk]
    exact hR

/-- C2 witness: the round trip at a store holding one record applied on
day 0, hit-tested at the center of its segment (0, 0.5). -/
theorem bucket_place_resolve_roundtrip_witness :
    resolve (day_buckets [demoJob] 0) ((0 : ℕ) : ℚ) (((0 : ℕ) : ℚ) + 1 / 2) =
      some demoJob := by
  have hb : day_buckets [demoJob] 0 = [[demoJob]] := by
    have had : all_dates [demoJob] 0 = [0] := by
      have he : earliest_date [demoJob] 0 = 0 := by decide
      have ht : date_naive 0 = 0 := by decide
      unfold all_dates
      rw [he, ht, dayRange_unfold, if_pos le_rfl, dayRange_unfold, if_neg (by omega)]
    unfold day_buckets
    rw [had]
    decide
  exact bucket_place_resolve_roundtrip [demoJob] 0 0 0 demoJob (by rw [hb]; rfl)
